import Mathlib

/-!
Shallow embedding of the SKU Performance Analyzer (sku_analyzer.py).

The core pipeline of the dashboard is embedded as pure functions on lists:

* a transaction row (`Record`) mirrors one row of the pandas DataFrame with
  columns date, sku, product_name, category, quantity_sold, unit_price,
  total_revenue; dates are day numbers (a calendar date is totally ordered),
  monetary values are rationals standing for the float values;
* the date-range filter mirrors lines 125-129: when the widget value has
  exactly two endpoints the frame is filtered inclusively, otherwise the
  full frame is used;
* `calculate_sku_metrics` mirrors lines 133-149: a groupby on the triple
  (sku, product_name, category) with sum / sum / mean / nunique aggregates
  and the two derived ratio columns.  pandas float division yields NaN or
  an infinity when the denominator is zero, never an exception; that value
  escape is modelled by `Option` with `none` for the non-finite outcome.
  pandas orders the groups by key; no claim below depends on the order in
  which the groups are emitted, so the embedding keeps first-occurrence
  order of the keys;
* the ranker mirrors lines 154-159 and 180: sort_values on the selected
  metric column with ascending=False followed by head(top_n).  sort_values
  places NaN entries last for either direction; the embedding sorts by a
  relation that is the reflexive descending order on finite values with
  the non-finite value greatest.  numpy uses an unstable quicksort, so the
  relative order of tied rows is implementation defined; the embedding
  fixes one order but no theorem below relies on it;
* the CSV upload branch mirrors lines 100-102 at schema level: the frame
  is the list of its column names, a column subscript on a missing column
  raises KeyError carrying the column name, and the steps run in program
  order (read date for to_datetime, then quantity_sold, then unit_price).
-/

namespace SkuAnalyzer

/-- One sales transaction row of the DataFrame. -/
structure Record where
  date : ℕ
  sku : String
  product_name : String
  category : String
  quantity_sold : ℕ
  unit_price : ℚ
  total_revenue : ℚ
deriving DecidableEq, Repr

/-- The groupby key of calculate_sku_metrics: the triple
(sku, product_name, category) from line 135. -/
abbrev GroupKey := String × String × String

/-- The grouping key of a row. -/
def recordKey (r : Record) : GroupKey := (r.sku, r.product_name, r.category)

/-- pandas float division: a finite quotient is `some`, a zero denominator
gives NaN or an infinity (modelled as `none`); no exception is ever raised. -/
def pdDiv (x y : ℚ) : Option ℚ := if y = 0 then none else some (x / y)

/-- One row of the sku_metrics frame produced by calculate_sku_metrics
(columns renamed on lines 142-143, derived columns on lines 146-147). -/
structure SkuMetrics where
  sku : String
  product_name : String
  category : String
  total_quantity : ℕ
  total_revenue : ℚ
  avg_unit_price : Option ℚ
  days_with_sales : ℕ
  avg_daily_quantity : Option ℚ
  avg_order_value : Option ℚ
deriving DecidableEq, Repr

/-- The rows of the frame belonging to one groupby group. -/
def groupOf (df : List Record) (k : GroupKey) : List Record :=
  df.filter fun r => recordKey r = k

/-- The distinct grouping keys occurring in the frame, one per groupby group. -/
def groupKeys (df : List Record) : List GroupKey :=
  (df.map recordKey).dedup

/-- The aggregation of one group: quantity_sold summed, total_revenue summed,
unit_price averaged, distinct dates counted (nunique), then the derived
ratios avg_daily_quantity and avg_order_value of lines 146-147. -/
def aggGroup (df : List Record) (k : GroupKey) : SkuMetrics :=
  let g := groupOf df k
  let tq := (g.map Record.quantity_sold).sum
  let tr := (g.map Record.total_revenue).sum
  let days := ((g.map Record.date).dedup).length
  { sku := k.1
    product_name := k.2.1
    category := k.2.2
    total_quantity := tq
    total_revenue := tr
    avg_unit_price := pdDiv (g.map Record.unit_price).sum (g.length : ℚ)
    days_with_sales := days
    avg_daily_quantity := pdDiv (tq : ℚ) (days : ℚ)
    avg_order_value := pdDiv tr (tq : ℚ) }

/-- calculate_sku_metrics (lines 133-149): one SkuMetrics row per groupby
group, i.e. per distinct (sku, product_name, category) triple. -/
def calculate_sku_metrics (df : List Record) : List SkuMetrics :=
  (groupKeys df).map (aggGroup df)

/-- The number of distinct sku values in the frame. -/
def distinctSkuCount (df : List Record) : ℕ :=
  ((df.map Record.sku).dedup).length

/-- The date-range filter of lines 125-129: with exactly two endpoints the
frame is filtered to start_date <= date <= end_date (both inclusive),
otherwise the full frame is used. -/
def df_filtered (df : List Record) (date_range : List ℕ) : List Record :=
  match date_range with
  | [start_date, end_date] =>
      df.filter fun r => start_date ≤ r.date ∧ r.date ≤ end_date
  | _ => df

/-- The primary-metric selector of lines 111-114. -/
inductive Metric
  | totalRevenue
  | quantitySold
  | averageOrderValue
deriving DecidableEq, Repr

/-- The column sort_values sorts by for a metric choice (lines 154-159);
for Average Order Value the column may hold the non-finite value. -/
def sortColumn (m : Metric) (s : SkuMetrics) : Option ℚ :=
  match m with
  | .totalRevenue => some s.total_revenue
  | .quantitySold => some (s.total_quantity : ℚ)
  | .averageOrderValue => s.avg_order_value

/-- Descending comparison on sort keys as sort_values with ascending=False
performs it: larger finite values first, NaN placed last. -/
def keyGeB : Option ℚ → Option ℚ → Bool
  | some a, some b => decide (b ≤ a)
  | _, none => true
  | none, some _ => false

/-- The row order imposed by sort_values(metric column, ascending=False). -/
def metricGe (m : Metric) (a b : SkuMetrics) : Prop :=
  keyGeB (sortColumn m a) (sortColumn m b) = true

instance (m : Metric) : DecidableRel (metricGe m) := fun a b =>
  inferInstanceAs (Decidable (keyGeB (sortColumn m a) (sortColumn m b) = true))

instance (m : Metric) : IsTotal SkuMetrics (metricGe m) := by
  constructor
  intro a b
  unfold metricGe keyGeB
  cases sortColumn m a <;> cases sortColumn m b <;> simp
  exact le_total _ _

instance (m : Metric) : IsTrans SkuMetrics (metricGe m) := by
  constructor
  intro a b c hab hbc
  unfold metricGe keyGeB at *
  cases ha : sortColumn m a <;> cases hb : sortColumn m b <;>
    cases hc : sortColumn m c <;> rw [ha, hb] at hab <;> rw [hb, hc] at hbc <;>
    simp_all
  exact le_trans hbc hab

/-- sku_metrics_sorted (lines 154-159): the metrics frame sorted descending
by the selected metric column. -/
def sku_metrics_sorted (df : List Record) (m : Metric) : List SkuMetrics :=
  List.insertionSort (metricGe m) (calculate_sku_metrics df)

/-- top_skus (line 180): head(top_n) of the sorted metrics frame. -/
def top_skus (df : List Record) (m : Metric) (top_n : ℕ) : List SkuMetrics :=
  (sku_metrics_sorted df m).take top_n

/-- Python column subscript df[c] at schema level: ok when the column is
present, otherwise KeyError carrying the column name. -/
def requireCol (cols : List String) (c : String) : Except String Unit :=
  if c ∈ cols then Except.ok () else Except.error c

/-- The CSV upload handling of lines 100-102 at schema level: read_csv gives
the uploaded columns; to_datetime reads column date; the revenue assignment
reads quantity_sold then unit_price and adds column total_revenue.  The
first missing column aborts the script with KeyError before any dashboard
output is rendered. -/
def processUpload (cols : List String) : Except String (List String) :=
  match requireCol cols "date" with
  | Except.error e => Except.error e
  | Except.ok _ =>
    match requireCol cols "quantity_sold" with
    | Except.error e => Except.error e
    | Except.ok _ =>
      match requireCol cols "unit_price" with
      | Except.error e => Except.error e
      | Except.ok _ => Except.ok (cols ++ ["total_revenue"])

/-! Helper lemmas: summing one value over a duplicate-free key list. -/

lemma sum_ite_of_not_mem (k0 : GroupKey) (v : ℚ) :
    ∀ ks : List GroupKey, k0 ∉ ks →
      (ks.map fun k => if k0 = k then v else 0).sum = 0
  | [], _ => rfl
  | k :: ks, h => by
      have h1 : k0 ≠ k := fun hx => h (hx ▸ List.mem_cons_self k ks)
      have h2 : k0 ∉ ks := fun hx => h (List.mem_cons_of_mem _ hx)
      simp [h1, sum_ite_of_not_mem k0 v ks h2]

lemma sum_ite_of_nodup (k0 : GroupKey) (v : ℚ) :
    ∀ ks : List GroupKey, ks.Nodup → k0 ∈ ks →
      (ks.map fun k => if k0 = k then v else 0).sum = v
  | [], _, hm => absurd hm (List.not_mem_nil k0)
  | k :: ks, hnd, hm => by
      rcases List.mem_cons.mp hm with h | h
      · subst h
        have hn : k0 ∉ ks := (List.nodup_cons.mp hnd).1
        simp [sum_ite_of_not_mem k0 v ks hn]
      · have h1 : k0 ≠ k := by
          rintro rfl
          exact (List.nodup_cons.mp hnd).1 h
        simp [h1, sum_ite_of_nodup k0 v ks (List.nodup_cons.mp hnd).2 h]

/-- The groups indexed by a duplicate-free key list covering every row
partition the frame, so the per-group revenue sums add up to the frame sum. -/
lemma sum_revenue_over_groups : ∀ (l : List Record) (ks : List GroupKey),
    ks.Nodup → (∀ r ∈ l, recordKey r ∈ ks) →
    (ks.map fun k =>
        ((l.filter fun r => recordKey r = k).map Record.total_revenue).sum).sum
      = (l.map Record.total_revenue).sum
  | [], ks, _, _ => by simp
  | r :: t, ks, hnd, hcov => by
      have hr : recordKey r ∈ ks := hcov r (List.mem_cons_self r t)
      have hcov2 : ∀ x ∈ t, recordKey x ∈ ks := fun x hx =>
        hcov x (List.mem_cons_of_mem _ hx)
      have hstep : ∀ k ∈ ks,
          (((r :: t).filter fun x => recordKey x = k).map Record.total_revenue).sum
            = (if recordKey r = k then r.total_revenue else 0)
              + ((t.filter fun x => recordKey x = k).map Record.total_revenue).sum := by
        intro k _
        by_cases h : recordKey r = k
        · simp [List.filter_cons, h]
        · simp [List.filter_cons, h]
      rw [List.map_congr_left hstep, List.sum_map_add]
      rw [sum_ite_of_nodup _ _ ks hnd hr,
        sum_revenue_over_groups t ks hnd hcov2]
      simp

/-- C1: for every non-empty record set, the sum of total_revenue over all
SkuMetrics rows produced by calculate_sku_metrics equals the sum of
total_revenue over all input records. -/
theorem C1_aggregation_conserves_revenue (df : List Record) (_h : df ≠ []) :
    ((calculate_sku_metrics df).map SkuMetrics.total_revenue).sum
      = (df.map Record.total_revenue).sum := by
  unfold calculate_sku_metrics
  rw [List.map_map]
  have hkey : ∀ k ∈ groupKeys df,
      (SkuMetrics.total_revenue ∘ aggGroup df) k
        = ((df.filter fun r => recordKey r = k).map Record.total_revenue).sum := by
    intro k _
    rfl
  rw [List.map_congr_left hkey]
  exact sum_revenue_over_groups df (groupKeys df) (List.nodup_dedup _)
    (fun r hr => List.mem_dedup.mpr (List.mem_map_of_mem recordKey hr))

/-- Concrete frame for the C1 witness. -/
def dfC1 : List Record :=
  [⟨0, "SKU-001", "Coffee", "Beverages", 2, 3, 6⟩,
   ⟨1, "SKU-002", "Tea", "Beverages", 1, 5, 5⟩]

/-- C1 witness: the conservation theorem applied to a concrete frame. -/
theorem C1_witness : dfC1 ≠ [] ∧
    ((calculate_sku_metrics dfC1).map SkuMetrics.total_revenue).sum
      = (dfC1.map Record.total_revenue).sum :=
  ⟨by decide, C1_aggregation_conserves_revenue dfC1 (by decide)⟩

/-- A frame in which one sku value occurs under two product_name values, so
the groupby on (sku, product_name, category) creates two groups for it. -/
def dfDup : List Record :=
  [⟨0, "SKU-001", "Coffee", "Beverages", 1, 1, 1⟩,
   ⟨0, "SKU-001", "Coffee Beans", "Beverages", 1, 1, 1⟩]

/-- C2 counterexample: on a frame whose single distinct sku occurs with two
product_name values, head(2) of the sorted metrics has 2 rows while
min(2, distinct sku count) = 1, so the stated length law fails. -/
theorem C2_counterexample :
    ¬ (top_skus dfDup Metric.totalRevenue 2).length
        = min 2 (distinctSkuCount dfDup) := by
  have hlen : (top_skus dfDup Metric.totalRevenue 2).length = 2 := by
    rw [top_skus, List.length_take, sku_metrics_sorted,
      List.length_insertionSort, calculate_sku_metrics, List.length_map,
      show (groupKeys dfDup).length = 2 from by decide]
    exact min_self 2
  intro h
  rw [hlen, show distinctSkuCount dfDup = 1 from by decide,
    min_eq_right (by norm_num : (1 : ℕ) ≤ 2)] at h
  exact absurd h (by decide)

/-- C2 amended: for every frame, metric and N >= 1, the ranker output is
sorted descending by the selected metric and its length is
min(N, number of distinct (sku, product_name, category) groups); with fewer
groups than N all of them are returned. -/
theorem C2_ranker_sorted_and_length (df : List Record) (m : Metric) (n : ℕ)
    (_hn : 1 ≤ n) :
    (top_skus df m n).Sorted (metricGe m)
      ∧ (top_skus df m n).length = min n (groupKeys df).length := by
  constructor
  · exact List.Pairwise.sublist (List.take_sublist n _)
      (List.sorted_insertionSort (metricGe m) (calculate_sku_metrics df))
  · rw [top_skus, List.length_take, sku_metrics_sorted,
      List.length_insertionSort, calculate_sku_metrics, List.length_map]

/-- Concrete frame for the C2 witness. -/
def dfC2 : List Record := [⟨0, "SKU-002", "Tea", "Beverages", 2, 4, 8⟩]

/-- C2 witness: the amended ranker theorem applied at a concrete frame. -/
theorem C2_witness : (1 : ℕ) ≤ 1 ∧
    ((top_skus dfC2 Metric.totalRevenue 1).Sorted (metricGe Metric.totalRevenue)
      ∧ (top_skus dfC2 Metric.totalRevenue 1).length
          = min 1 (groupKeys dfC2).length) :=
  ⟨by decide, C2_ranker_sorted_and_length dfC2 Metric.totalRevenue 1 (by decide)⟩

/-- C3: the groupby of calculate_sku_metrics keys on the full triple, so a
frame with one distinct sku under two product_name values yields two
SkuMetrics rows, not the one row per distinct sku the claim states. -/
theorem C3_duplicate_groups_for_one_sku :
    distinctSkuCount dfDup = 1 ∧ (calculate_sku_metrics dfDup).length = 2 := by
  decide

/-- A frame whose only record has quantity_sold = 0, as a CSV upload can
contain (the upload branch does not drop zero-quantity rows). -/
def dfC4 : List Record := [⟨0, "SKU-001", "Coffee", "Beverages", 0, 5, 0⟩]

/-- C4: on a group with total_quantity = 0 the float division of line 147
evaluates 0.0 / 0, whose value is NaN (modelled none), not the 0 the claim
states; no exception is raised. -/
theorem C4_zero_quantity_gives_nan :
    (calculate_sku_metrics dfC4).map SkuMetrics.avg_order_value = [none]
      ∧ (calculate_sku_metrics dfC4).map SkuMetrics.avg_order_value
          ≠ [some 0] := by decide

/-- Concrete frame for the C5 counterexample. -/
def dfC5 : List Record := [⟨5, "SKU-001", "Coffee", "Beverages", 1, 2, 2⟩]

/-- C5 counterexample: for the inverted range start_date = 10 > 0 = end_date
the filter of line 127 is still applied and returns the empty frame, not
the full one the claim states. -/
theorem C5_counterexample :
    df_filtered dfC5 [10, 0] = [] ∧ dfC5 ≠ [] := by decide

/-- C5 amended: only a range without exactly two endpoints falls back to the
full frame; an inverted two-endpoint range start > end is filtered as usual
and yields the empty frame. -/
theorem C5_malformed_range_behaviour (df : List Record) (dr : List ℕ)
    (s e : ℕ) (hdr : dr.length ≠ 2) (hse : e < s) :
    df_filtered df dr = df ∧ df_filtered df [s, e] = [] := by
  constructor
  · match dr, hdr with
    | [], _ => rfl
    | [a], _ => rfl
    | a :: b :: c :: t, _ => rfl
    | [a, b], h => exact absurd rfl h
  · rw [df_filtered, List.filter_eq_nil_iff]
    intro r _
    simp only [decide_eq_true_eq, not_and]
    intro h1 h2
    omega

/-- C5 witness: the amended filter theorem applied at concrete inputs. -/
theorem C5_witness : ([3] : List ℕ).length ≠ 2 ∧ (0 : ℕ) < 10
    ∧ (df_filtered dfC5 [3] = dfC5 ∧ df_filtered dfC5 [10, 0] = []) :=
  ⟨by decide, by decide, C5_malformed_range_behaviour dfC5 [3] 10 0 (by decide) (by decide)⟩

/-- The column set of an upload that lacks unit_price. -/
def colsC6 : List String := ["date", "sku", "product_name", "quantity_sold"]

/-- C6 counterexample: the upload branch aborts with the KeyError payload
"unit_price", which is not the curated message the claim states. -/
theorem C6_counterexample :
    processUpload colsC6 = Except.error "unit_price"
      ∧ ("unit_price" : String) ≠ "missing column: unit_price" :=
  ⟨rfl, by decide⟩

/-- C6 amended: an upload with date and quantity_sold present but unit_price
missing aborts before any dashboard output with the uncaught KeyError naming
unit_price, not with a curated "missing column: unit_price" message. -/
theorem C6_keyerror_unit_price (cols : List String)
    (hd : "date" ∈ cols) (hq : "quantity_sold" ∈ cols)
    (hu : "unit_price" ∉ cols) :
    processUpload cols = Except.error "unit_price" := by
  unfold processUpload requireCol
  simp [hd, hq, hu]

/-- C6 witness: the amended upload theorem applied at the concrete schema. -/
theorem C6_witness :
    "date" ∈ colsC6 ∧ "quantity_sold" ∈ colsC6 ∧ "unit_price" ∉ colsC6
      ∧ processUpload colsC6 = Except.error "unit_price" :=
  ⟨by decide, by decide, by decide,
    C6_keyerror_unit_price colsC6 (by decide) (by decide) (by decide)⟩

/-- C7: for a well-formed two-endpoint range the filter keeps exactly the
records whose date lies inclusively between the endpoints. -/
theorem C7_filter_membership (df : List Record) (s e : ℕ) (_hse : s ≤ e)
    (r : Record) :
    r ∈ df_filtered df [s, e] ↔ r ∈ df ∧ s ≤ r.date ∧ r.date ≤ e := by
  show r ∈ df.filter (fun x => s ≤ x.date ∧ x.date ≤ e) ↔ _
  rw [List.mem_filter]
  simp

/-- Concrete frame and record for the C7 witness. -/
def dfC7 : List Record := [⟨2, "SKU-003", "Honey", "Pantry", 1, 3, 3⟩]

/-- Concrete record for the C7 witness. -/
def rC7 : Record := ⟨2, "SKU-003", "Honey", "Pantry", 1, 3, 3⟩

/-- C7 witness: the filter membership theorem applied at a concrete frame. -/
theorem C7_witness : (1 : ℕ) ≤ 3 ∧
    (rC7 ∈ df_filtered dfC7 [1, 3] ↔ rC7 ∈ dfC7 ∧ 1 ≤ rC7.date ∧ rC7.date ≤ 3) :=
  ⟨by decide, C7_filter_membership dfC7 1 3 (by decide) rC7⟩

/-- C9: filtering an already-filtered frame by the same well-formed range
returns the identical frame. -/
theorem C9_filter_idempotent (df : List Record) (s e : ℕ) (_hse : s ≤ e) :
    df_filtered (df_filtered df [s, e]) [s, e] = df_filtered df [s, e] := by
  show (df.filter _).filter _ = df.filter _
  apply List.filter_eq_self.mpr
  intro a ha
  exact (List.mem_filter.mp ha).2

/-- Concrete frame for the C9 witness. -/
def dfC9 : List Record := [⟨7, "SKU-005", "Crackers", "Snacks", 3, 2, 6⟩]

/-- C9 witness: idempotence applied at a concrete frame and range. -/
theorem C9_witness : (6 : ℕ) ≤ 8 ∧
    df_filtered (df_filtered dfC9 [6, 8]) [6, 8] = df_filtered dfC9 [6, 8] :=
  ⟨by decide, C9_filter_idempotent dfC9 6 8 (by decide)⟩

/-- C10: every SkuMetrics row comes from a non-empty group, so its
days_with_sales count is at least 1 and the avg_daily_quantity division has
a non-zero denominator, yielding a finite value. -/
theorem C10_days_with_sales_positive (df : List Record) (_hdf : df ≠ [])
    (s : SkuMetrics) (hs : s ∈ calculate_sku_metrics df) :
    1 ≤ s.days_with_sales ∧ s.avg_daily_quantity.isSome := by
  rcases List.mem_map.mp hs with ⟨k, hk, rfl⟩
  have hk2 : k ∈ df.map recordKey := List.mem_dedup.mp hk
  rcases List.mem_map.mp hk2 with ⟨r, hr, hkr⟩
  have hrg : r ∈ groupOf df k := by
    rw [groupOf, List.mem_filter]
    exact ⟨hr, by simp [hkr]⟩
  have hdate : r.date ∈ ((groupOf df k).map Record.date).dedup :=
    List.mem_dedup.mpr (List.mem_map_of_mem Record.date hrg)
  have hlen : 0 < ((groupOf df k).map Record.date).dedup.length :=
    List.length_pos_of_mem hdate
  refine ⟨hlen, ?_⟩
  show (pdDiv _ (((groupOf df k).map Record.date).dedup.length : ℚ)).isSome
  rw [pdDiv]
  have hne : ((((groupOf df k).map Record.date).dedup.length : ℕ) : ℚ) ≠ 0 := by
    exact_mod_cast Nat.pos_iff_ne_zero.mp hlen
  simp [hne]

/-- Concrete frame for the C10 witness. -/
def dfC10 : List Record := [⟨4, "SKU-004", "Jam", "Pantry", 2, 2, 4⟩]

/-- The single metrics row of the C10 witness frame. -/
def sC10 : SkuMetrics := aggGroup dfC10 ("SKU-004", "Jam", "Pantry")

/-- C10 witness: positivity of days_with_sales applied at a concrete frame. -/
theorem C10_witness : dfC10 ≠ []
    ∧ (1 ≤ sC10.days_with_sales ∧ sC10.avg_daily_quantity.isSome) :=
  ⟨by decide, C10_days_with_sales_positive dfC10 (by decide) sC10
    (List.mem_cons_self sC10 [])⟩

end SkuAnalyzer
